import Mathlib

/-!
Verification development for the tekton-genie document ingestion pipeline
(`ingest_tekton.py`, class `TektonIngestor`).

The Python code is shallowly embedded as pure Lean functions.  External
collaborators are modelled as explicit inputs:

* the filesystem walk (`doc_dir.rglob`) becomes a list of `FileEntry`
  records carrying the attributes the loader inspects (path, directory
  flag, size, mtime) together with the outcome of reading the file
  (`ReadOutcome`): a clean utf-8 decode, a `UnicodeDecodeError` followed by
  a successful binary read with lossy replacement, a failure of that
  binary fallback, or any other per-file exception;
* the `hashlib.md5(...).hexdigest()` digest becomes an abstract function
  `md5hex : String → String` (theorems that need it assume the digest is
  32 hex characters wide, as md5 guarantees);
* the sink (LlamaStack client) becomes a trace of `SinkCall` values plus
  an oracle `resp : Nat → Bool` giving the outcome of the n-th insert
  call, and a `listOutcome` value giving the result of the
  `vector_dbs.list()` call used by the existence check;
* wall-clock time becomes a `now : Nat` parameter (`time.time()`), and the
  logging / delay calls, which carry no state the claims mention, are
  dropped.
-/

namespace TektonGenie

/-- The four counters of `_init_metrics` that the claims mention
(`start_time` and `last_success` are wall-clock datetimes and carry no
claim-relevant state). -/
structure Metrics where
  filesFound : Nat
  filesProcessed : Nat
  filesSkipped : Nat
  filesFailed : Nat
  deriving DecidableEq, Repr

/-- `_init_metrics`: every counter starts at zero. -/
def initMetrics : Metrics :=
  { filesFound := 0, filesProcessed := 0, filesSkipped := 0, filesFailed := 0 }

/-- Outcome of the `open`/`read` sequence of `load_documents` for one file:
`text c` models a clean utf-8 decode yielding `c`; `binaryFallback c`
models a `UnicodeDecodeError` followed by a successful binary read whose
lossy utf-8 decode yields `c`; `fallbackFailed` models a
`UnicodeDecodeError` whose binary re-read raises; `otherFailure` models any
other exception while processing the file. -/
inductive ReadOutcome where
  | text (content : String)
  | binaryFallback (content : String)
  | fallbackFailed
  | otherFailure
  deriving DecidableEq, Repr

/-- True exactly on the lossy binary-fallback outcome. -/
def ReadOutcome.usedFallback : ReadOutcome → Bool
  | .binaryFallback _ => true
  | _ => false

/-- One entry yielded by `doc_dir.rglob`: the attributes the loader
inspects plus the read outcome the filesystem would produce for it. -/
structure FileEntry where
  path : String
  isDir : Bool
  fileSize : Nat
  modifiedAt : Nat
  readResult : ReadOutcome
  deriving DecidableEq, Repr

/-- The metadata dict built by `load_documents` for each document. -/
structure DocMetadata where
  source : String
  fileName : String
  fileSize : Nat
  modifiedAt : Nat
  uploadedAt : Nat
  contentHash : String
  encoding : Option String
  deriving DecidableEq, Repr

/-- The document dict built by `load_documents`. -/
structure Document where
  documentId : String
  content : String
  metadata : DocMetadata
  deriving DecidableEq, Repr

/-- One call made to the external sink (LlamaStack client): the
`vector_dbs.list()` call of `_vector_db_exists`, the
`vector_dbs.register`/`unregister` calls of `setup_vector_db`, and the
`tool_runtime.rag_tool.insert` calls of `ingest_documents` and
`_process_documents_individually` (recorded with the ids of the documents
submitted). -/
inductive SinkCall where
  | listDbs
  | register
  | unregister
  | insert (docIds : List String)
  deriving DecidableEq, Repr

/-- The mutable state `ingest_documents` touches: the metrics, the
`ingested_doc_ids` set (modelled as a duplicate-free list), the trace of
sink calls made so far, and the number of insert calls made so far (the
index fed to the insert-outcome oracle). -/
structure IngestState where
  metrics : Metrics
  ingestedDocIds : List String
  trace : List SinkCall
  insertCalls : Nat
  deriving DecidableEq, Repr

/-- Python `str.lower()` restricted to the per-character lowering the
extension check needs. -/
def lowerStr (s : String) : String :=
  String.mk (s.data.map Char.toLower)

/-- Python `str.replace(a, b)` for single-character arguments: a
per-character substitution. -/
def replaceChar (s : String) (a b : Char) : String :=
  String.mk (s.data.map (fun c => if c = a then b else c))

/-- Index of the last occurrence of a character in a list (Python
`str.rfind`), if any. -/
def lastIdxOf (a : Char) (l : List Char) : Option Nat :=
  match l.reverse.findIdx? (fun c => c = a) with
  | none => none
  | some j => some (l.length - 1 - j)

/-- `pathlib.PurePath.name`: the final path component (posix separators;
`rglob` never yields trailing separators). -/
def pathName (p : String) : String :=
  String.mk ((p.data.splitOn '/').getLastD [])

/-- `pathlib.PurePath.suffix`: the extension of the final component, this
being `name[i:]` for `i` the index of the last dot when `0 < i <
len(name) - 1`, and the empty string otherwise. -/
def pathSuffix (p : String) : String :=
  let name := (p.data.splitOn '/').getLastD []
  match lastIdxOf '.' name with
  | none => ""
  | some i => if 0 < i ∧ i + 1 < name.length then String.mk (name.drop i) else ""

/-- `self.supported_formats` from `__init__`. -/
def supportedFormats : List String :=
  [".md", ".txt", ".pdf", ".html", ".docx", ".pptx", ".csv", ".json", ".yaml", ".yml"]

/-- Posix absolute-path test (`Path.is_absolute`): the path starts with a
separator. -/
def isAbsolutePath (p : String) : Bool :=
  match p.data with
  | [] => false
  | c :: _ => c = '/'

/-- `file_path.relative_to(file_path.anchor)` for a posix absolute path:
the anchor is the leading run of separators, so the relative part is the
path with that run stripped. -/
def stripAnchor (p : String) : String :=
  String.mk (p.data.dropWhile (fun c => c = '/'))

/-- The `path_str.replace('/', '_').replace('\\', '_')` normalization step
of `_generate_document_id`. -/
def normalizePath (p : String) : String :=
  replaceChar (replaceChar p '/' '_') '\x5c' '_'

/-- `_generate_document_id`: normalize the (anchor-stripped, when
absolute) path and append the first 8 characters of the md5 hex digest of
the content, joined by an underscore.  `md5hex` abstracts
`hashlib.md5(content.encode()).hexdigest()`.  Python string slicing
`[:8]` is code-point slicing, modelled on `String.data`. -/
def generateDocumentId (md5hex : String → String) (path content : String) : String :=
  let pathStr := if isAbsolutePath path then stripAnchor path else path
  normalizePath pathStr ++ String.mk ['_'] ++ String.mk ((md5hex content).data.take 8)

/-- The metadata value recorded by the lossy-fallback branch of
`load_documents` under the `encoding` key. -/
def encReplace : String := "utf-8-with-replace"

/-- The document dict literal of `load_documents`, shared by the clean and
the fallback branch; `encoding` is `some encReplace` exactly when the
fallback branch builds the dict. -/
def mkDoc (md5hex : String → String) (now : Nat) (e : FileEntry) (content : String)
    (encoding : Option String) : Document :=
  { documentId := generateDocumentId md5hex e.path content
    content := content
    metadata :=
      { source := e.path
        fileName := pathName e.path
        fileSize := e.fileSize
        modifiedAt := e.modifiedAt
        uploadedAt := now
        contentHash := md5hex content
        encoding := encoding } }

/-- One iteration of the `for file in doc_dir.rglob('*')` loop of
`load_documents`: skip directories, count the file as found, skip
unsupported extensions, then read; a clean decode or a successful lossy
fallback appends a document (the fallback recording
`"encoding": "utf-8-with-replace"`), a failed fallback or any other
exception counts the file as failed. -/
def processEntry (md5hex : String → String) (now : Nat) (e : FileEntry) (m : Metrics) :
    Option Document × Metrics :=
  if e.isDir then (none, m)
  else
    let m1 := { m with filesFound := m.filesFound + 1 }
    if ¬ supportedFormats.contains (lowerStr (pathSuffix e.path)) then
      (none, { m1 with filesSkipped := m1.filesSkipped + 1 })
    else
      match e.readResult with
      | .text c => (some (mkDoc md5hex now e c none), m1)
      | .binaryFallback c => (some (mkDoc md5hex now e c (some encReplace)), m1)
      | .fallbackFailed => (none, { m1 with filesFailed := m1.filesFailed + 1 })
      | .otherFailure => (none, { m1 with filesFailed := m1.filesFailed + 1 })

/-- `load_documents`: return no documents when `_validate_directory` fails
(root missing or not a directory), otherwise fold `processEntry` over the
traversal, accumulating documents in traversal order and threading the
metrics. -/
def loadDocuments (md5hex : String → String) (now : Nat) (rootValid : Bool)
    (entries : List FileEntry) (m : Metrics) : List Document × Metrics :=
  if ¬ rootValid then ([], m)
  else
    entries.foldl
      (fun acc e =>
        match processEntry md5hex now e acc.2 with
        | (some d, m2) => (acc.1 ++ [d], m2)
        | (none, m2) => (acc.1, m2))
      ([], m)

/-- Python `set.add` on the `ingested_doc_ids` set, the set modelled as a
duplicate-free list. -/
def addDocId (ids : List String) (id : String) : List String :=
  if ids.contains id then ids else ids ++ [id]

/-- Structural helper for `batchSlices`: the first argument is fuel
bounding the recursion depth, instantiated with the list length, which
always suffices because every step with a positive bound consumes at
least one element. -/
def batchSlicesGo {α : Type} : Nat → List α → Nat → List (List α)
  | _, [], _ => []
  | 0, _ :: _, _ => []
  | _ + 1, _ :: _, 0 => []
  | fuel + 1, a :: l, m + 1 =>
      (a :: l).take (m + 1) :: batchSlicesGo fuel ((a :: l).drop (m + 1)) (m + 1)

/-- The slices `documents[i:i + max_batch_size]` for
`i in range(0, total_docs, max_batch_size)`, in loop order.  A zero step
raises `ValueError` in Python and is modelled as producing no batches;
the code always passes `max_batch_size = 50`. -/
def batchSlices {α : Type} (l : List α) (m : Nat) : List (List α) :=
  batchSlicesGo l.length l m

/-- `_process_documents_individually`: for each document of the failed
batch in order, make a single-document insert call; on success increment
`files_processed` and add the id to `ingested_doc_ids`, on failure
increment `files_failed`.  `resp n` is the outcome of the n-th insert call
of the run. -/
def processDocumentsIndividually (resp : Nat → Bool) (docs : List Document)
    (s : IngestState) : IngestState :=
  docs.foldl
    (fun st doc =>
      let ok := resp st.insertCalls
      let st1 := { st with
        trace := st.trace ++ [SinkCall.insert [doc.documentId]]
        insertCalls := st.insertCalls + 1 }
      if ok then
        { st1 with
          metrics := { st1.metrics with filesProcessed := st1.metrics.filesProcessed + 1 }
          ingestedDocIds := addDocId st1.ingestedDocIds doc.documentId }
      else
        { st1 with
          metrics := { st1.metrics with filesFailed := st1.metrics.filesFailed + 1 } })
    s

/-- `ingest_documents`: return unchanged on an empty document list;
otherwise submit each contiguous batch with one insert call; on success
add the batch size to `files_processed` and record every id; on failure
add the batch size to `files_failed` and hand the batch to
`_process_documents_individually`. -/
def ingestDocuments (resp : Nat → Bool) (maxBatchSize : Nat) (docs : List Document)
    (s : IngestState) : IngestState :=
  if docs.isEmpty then s
  else
    (batchSlices docs maxBatchSize).foldl
      (fun (st : IngestState) (batch : List Document) =>
        let ok := resp st.insertCalls
        let st1 := { st with
          trace := st.trace ++ [SinkCall.insert (batch.map (fun (d : Document) => d.documentId))]
          insertCalls := st.insertCalls + 1 }
        if ok then
          { st1 with
            metrics :=
              { st1.metrics with filesProcessed := st1.metrics.filesProcessed + batch.length }
            ingestedDocIds :=
              batch.foldl (fun ids (d : Document) => addDocId ids d.documentId)
                st1.ingestedDocIds }
        else
          processDocumentsIndividually resp batch
            { st1 with
              metrics :=
                { st1.metrics with filesFailed := st1.metrics.filesFailed + batch.length } })
      s

/-- `_vector_db_exists`: list the registered vector DBs and test whether
any identifier equals `vector_db_id`; any exception from the list call
yields `False`.  `listOutcome` is the sink response, as the list of
identifiers or an error. -/
def vectorDbExists (vectorDbId : String) : Except String (List String) → Bool
  | .error _ => false
  | .ok dbs => dbs.contains vectorDbId

/-- `setup_vector_db`: the existence check (one `listDbs` call) always
runs first; when the DB exists and `recreate` is false, return without
further calls; otherwise `unregister` first when `recreate` is true, then
`register`. -/
def setupVectorDb (vectorDbId : String) (listOutcome : Except String (List String))
    (recreate : Bool) : List SinkCall :=
  if vectorDbExists vectorDbId listOutcome && !recreate then
    [SinkCall.listDbs]
  else
    [SinkCall.listDbs] ++ (if recreate then [SinkCall.unregister] else []) ++ [SinkCall.register]

/-- `run` on the path where vector-DB setup succeeds: `setup_vector_db`
first, then `load_documents` on the given root, then `ingest_documents`
when any documents were loaded (the empty-documents diagnostics make no
sink call). -/
def run (md5hex : String → String) (vectorDbId : String)
    (listOutcome : Except String (List String)) (recreate : Bool) (now : Nat)
    (rootValid : Bool) (entries : List FileEntry) (resp : Nat → Bool)
    (maxBatchSize : Nat) : IngestState :=
  let s0 : IngestState :=
    { metrics := initMetrics
      ingestedDocIds := []
      trace := setupVectorDb vectorDbId listOutcome recreate
      insertCalls := 0 }
  let loaded := loadDocuments md5hex now rootValid entries s0.metrics
  let s1 := { s0 with metrics := loaded.2 }
  if loaded.1.isEmpty then s1 else ingestDocuments resp maxBatchSize loaded.1 s1

/-- The content of a read outcome that yields a document, if any. -/
def readContent : ReadOutcome → Option String
  | .text c => some c
  | .binaryFallback c => some c
  | .fallbackFailed => none
  | .otherFailure => none

/-- The fixed `vector_db_id` set in `__init__`. -/
def vectorDbIdMain : String := "tekton_docs_vector_db"

/-- Constant stand-in for the abstract md5 hex digest in concrete
evaluations: 32 hex characters, as `hexdigest()` returns. -/
def md5W : String → String := fun _ => "0123456789abcdef0123456789abcdef"

/-- The state at the start of a fresh `ingest_documents` call. -/
def stateZero : IngestState :=
  { metrics := initMetrics, ingestedDocIds := [], trace := [], insertCalls := 0 }

/-- Concrete contents and paths used in evaluations. -/
def helloS : String := "hello"

def bContent : String := "b?c"

def contentS : String := "same"

def pathP1 : String := "a/b.md"

def pathP2 : String := "a_b.md"

/-- A concrete markdown file entry that decodes cleanly. -/
def entryA : FileEntry :=
  { path := "docs/a.md", isDir := false, fileSize := 5, modifiedAt := 7
    readResult := ReadOutcome.text helloS }

/-- The same file path as `entryA` seen in a later run: different size,
mtime and upload time, identical content. -/
def entryA2 : FileEntry :=
  { path := "docs/a.md", isDir := false, fileSize := 999, modifiedAt := 1000
    readResult := ReadOutcome.text helloS }

/-- A concrete entry whose utf-8 decode fails and whose lossy binary
fallback succeeds. -/
def entryFallback : FileEntry :=
  { path := "docs/b.md", isDir := false, fileSize := 9, modifiedAt := 8
    readResult := ReadOutcome.binaryFallback bContent }

/-- The documents `load_documents` builds from `entryA` at upload time 5
and from `entryA2` at upload time 77. -/
def docA1 : Document := mkDoc md5W 5 entryA helloS none

def docA2 : Document := mkDoc md5W 77 entryA2 helloS none

/-- The document `load_documents` builds from `entryFallback`. -/
def docB1 : Document := mkDoc md5W 3 entryFallback bContent (some encReplace)

/-- A three-document input for the batching evaluation. -/
def docsW : List Document := [docA1, docA2, docB1]

/-- Insert oracle that fails every insert call. -/
def respFail : Nat → Bool := fun _ => false

/-- Insert oracle that fails the first insert call (the batch) and
succeeds on the second (the individual retry). -/
def respSecondOnly : Nat → Bool := fun n => n == 1

/-- `ingest_documents` on the single-document list `[docA1]` when the
batch insert and the individual retry both fail. -/
def ingFail : IngestState := ingestDocuments respFail 50 [docA1] stateZero

/-- `ingest_documents` on `[docA1]` when the batch insert fails and the
individual retry succeeds. -/
def ingRecover : IngestState := ingestDocuments respSecondOnly 50 [docA1] stateZero

/-- A complete run over one clean markdown file whose only batch fails and
whose individual retry succeeds: recovery fully resolves the batch. -/
def runC2 : IngestState :=
  run md5W vectorDbIdMain (Except.ok []) false 3 true [entryA] respSecondOnly 50

/-- A sink list outcome on which the vector DB already exists. -/
def listOutW : Except String (List String) := Except.ok [vectorDbIdMain]

/-- Concatenating the slices of `batchSlicesGo` in order reproduces the
input list whenever the fuel covers the list length. -/
theorem batchSlices_flatten_aux {α : Type} :
    ∀ (n k : Nat) (l : List α), l.length ≤ n → (batchSlicesGo n l (k + 1)).flatten = l := by
  intro n
  induction n with
  | zero =>
    intro k l hl
    have hnil : l = [] := List.eq_nil_of_length_eq_zero (Nat.le_zero.mp hl)
    subst hnil
    simp [batchSlicesGo]
  | succ n ih =>
    intro k l hl
    match l with
    | [] => simp [batchSlicesGo]
    | a :: t =>
      rw [batchSlicesGo]
      rw [List.flatten_cons]
      rw [ih k ((a :: t).drop (k + 1))
        (by simp only [List.length_drop, List.length_cons] at hl ⊢; omega)]
      exact List.take_append_drop (k + 1) (a :: t)

/-- `batchSlicesGo` yields `ceil (N / m)` slices, written `(N + m - 1) / m`
in the claim and `(N + k) / (k + 1)` here for `m = k + 1`. -/
theorem batchSlices_length_aux {α : Type} :
    ∀ (n k : Nat) (l : List α), l.length ≤ n →
      (batchSlicesGo n l (k + 1)).length = (l.length + k) / (k + 1) := by
  intro n
  induction n with
  | zero =>
    intro k l hl
    have hnil : l = [] := List.eq_nil_of_length_eq_zero (Nat.le_zero.mp hl)
    subst hnil
    simp [batchSlicesGo, Nat.div_eq_of_lt (Nat.lt_succ_self k)]
  | succ n ih =>
    intro k l hl
    match l with
    | [] => simp [batchSlicesGo, Nat.div_eq_of_lt (Nat.lt_succ_self k)]
    | a :: t =>
      rw [batchSlicesGo]
      rw [List.length_cons]
      rw [ih k ((a :: t).drop (k + 1))
        (by simp only [List.length_drop, List.length_cons] at hl ⊢; omega)]
      have hlen : ((a :: t).drop (k + 1)).length = t.length - k := by
        simp only [List.length_drop, List.length_cons]; omega
      rw [hlen]
      have hnum : (a :: t).length + k = t.length + (k + 1) := by
        simp only [List.length_cons]; omega
      rw [hnum, Nat.add_div_right t.length (Nat.succ_pos k)]
      rcases Nat.lt_or_ge t.length k with hlt | hge
      · have h1 : t.length - k = 0 := by omega
        rw [h1]
        rw [Nat.div_eq_of_lt (by omega)]
        rw [Nat.div_eq_of_lt (by omega)]
      · have h2 : t.length - k + k = t.length := by omega
        rw [h2]

/-- Every slice of `batchSlicesGo` has length at most the batch bound. -/
theorem batchSlices_bound_aux {α : Type} :
    ∀ (n k : Nat) (l : List α), l.length ≤ n →
      ∀ b ∈ batchSlicesGo n l (k + 1), b.length ≤ k + 1 := by
  intro n
  induction n with
  | zero =>
    intro k l hl
    have hnil : l = [] := List.eq_nil_of_length_eq_zero (Nat.le_zero.mp hl)
    subst hnil
    simp [batchSlicesGo]
  | succ n ih =>
    intro k l hl b hb
    match l with
    | [] => simp [batchSlicesGo] at hb
    | a :: t =>
      rw [batchSlicesGo] at hb
      rcases List.mem_cons.mp hb with h | h
      · subst h; exact List.length_take_le (k + 1) (a :: t)
      · exact ih k ((a :: t).drop (k + 1))
          (by simp only [List.length_drop, List.length_cons] at hl ⊢; omega) b h

/-- Claim C3: for every document sequence of size N at least 1 and every
max batch size M at least 1, `ingest_documents` partitions the sequence
into exactly ceil(N/M) contiguous batches, each of size at most M, and
concatenating the batches in submission order reproduces the input
sequence exactly. -/
theorem batch_dispatch_partition (docs : List Document) (M : Nat)
    (hM : 1 ≤ M) (hN : 1 ≤ docs.length) :
    (batchSlices docs M).length = (docs.length + M - 1) / M ∧
    (∀ b ∈ batchSlices docs M, b.length ≤ M) ∧
    (batchSlices docs M).flatten = docs := by
  obtain ⟨k, rfl⟩ : ∃ k, M = k + 1 := ⟨M - 1, by omega⟩
  refine ⟨?_, ?_, ?_⟩
  · rw [batchSlices, batchSlices_length_aux docs.length k docs le_rfl]
    have hnum : docs.length + (k + 1) - 1 = docs.length + k := by omega
    rw [hnum]
  · rw [batchSlices]
    exact batchSlices_bound_aux docs.length k docs le_rfl
  · rw [batchSlices]
    exact batchSlices_flatten_aux docs.length k docs le_rfl

/-- Witness for claim C3 at a concrete input: three documents in batches
of at most two. -/
theorem batch_dispatch_partition_witness :
    (batchSlices docsW 2).length = (docsW.length + 2 - 1) / 2 ∧
    (∀ b ∈ batchSlices docsW 2, b.length ≤ 2) ∧
    (batchSlices docsW 2).flatten = docsW :=
  batch_dispatch_partition docsW 2 (by decide) (by decide)

/-- Claim C9: calling `ingest_documents` with an empty document list is a
no-op: the returned state equals the input state, so every metrics
counter, the ingested-identifier set and the sink-call trace are
unchanged and no insert call is made. -/
theorem ingest_empty_documents_noop (resp : Nat → Bool) (maxBatchSize : Nat)
    (s : IngestState) :
    ingestDocuments resp maxBatchSize [] s = s ∧
    (ingestDocuments resp maxBatchSize [] s).metrics = s.metrics ∧
    (ingestDocuments resp maxBatchSize [] s).ingestedDocIds = s.ingestedDocIds ∧
    (ingestDocuments resp maxBatchSize [] s).trace = s.trace :=
  ⟨rfl, rfl, rfl, rfl⟩

/-- Claim C10: when the sink list operation of the existence check raises,
`_vector_db_exists` returns false rather than propagating, and a setup
with recreate false then attempts a registration instead of aborting at
the check. -/
theorem exists_check_error_means_absent (msg : String) :
    vectorDbExists vectorDbIdMain (Except.error msg) = false ∧
    setupVectorDb vectorDbIdMain (Except.error msg) false =
      [SinkCall.listDbs, SinkCall.register] ∧
    SinkCall.register ∈ setupVectorDb vectorDbIdMain (Except.error msg) false := by
  refine ⟨rfl, rfl, ?_⟩
  show SinkCall.register ∈ [SinkCall.listDbs, SinkCall.register]
  simp

/-- Claim C7: vector-store registration is idempotent under the recreate
flag: when the handle exists and recreate is false, setup makes no
register or unregister call; when recreate is true, setup unregisters and
then registers; when the handle does not exist, setup registers; and a
register call is only ever made when recreate is true or the handle was
not seen to exist, never merely over an existing handle. -/
theorem setup_vector_db_idempotent (lo : Except String (List String)) (recreate : Bool) :
    (vectorDbExists vectorDbIdMain lo = true → recreate = false →
      setupVectorDb vectorDbIdMain lo recreate = [SinkCall.listDbs]) ∧
    (recreate = true →
      setupVectorDb vectorDbIdMain lo recreate =
        [SinkCall.listDbs, SinkCall.unregister, SinkCall.register]) ∧
    (vectorDbExists vectorDbIdMain lo = false → recreate = false →
      setupVectorDb vectorDbIdMain lo recreate = [SinkCall.listDbs, SinkCall.register]) ∧
    (vectorDbExists vectorDbIdMain lo = true →
      SinkCall.register ∈ setupVectorDb vectorDbIdMain lo recreate → recreate = true) := by
  cases recreate <;> cases h : vectorDbExists vectorDbIdMain lo <;>
    simp [setupVectorDb, h]

/-- Witness for claim C7 at a concrete input: the handle already exists,
so a setup without recreate makes no register or unregister call, and a
setup with recreate unregisters and then registers. -/
theorem setup_vector_db_idempotent_witness :
    setupVectorDb vectorDbIdMain listOutW false = [SinkCall.listDbs] ∧
    setupVectorDb vectorDbIdMain listOutW true =
      [SinkCall.listDbs, SinkCall.unregister, SinkCall.register] :=
  ⟨(setup_vector_db_idempotent listOutW false).1 rfl rfl,
   (setup_vector_db_idempotent listOutW true).2.1 rfl⟩


/-- Claim C1 evaluation at the failing input: a batch of size K = 1 whose
sink insert fails triggers exactly one individual insert call, in order,
as the claim states; but when the retry also fails the document
contributes 2, not K = 1, to processed + failed (counted once by the
provisional batch-level increment and again by the individual increment),
and when the retry succeeds the provisional failure count is never moved
back to processed (final processed = 1 and failed = 1 instead of
failed = 0). -/
theorem recovery_accounting_eval :
    ingFail.metrics.filesProcessed = 0 ∧
    ingFail.metrics.filesFailed = 2 ∧
    ingFail.trace =
      [SinkCall.insert [docA1.documentId], SinkCall.insert [docA1.documentId]] ∧
    ingRecover.metrics.filesProcessed = 1 ∧
    ingRecover.metrics.filesFailed = 1 := by
  refine ⟨rfl, rfl, rfl, rfl, rfl⟩

/-- Claim C2 evaluation at the failing input: a run over one clean
markdown file whose only batch fails and whose individual retry succeeds,
so that recovery fully resolves every batch, ends with files_found = 1 but
files_processed + files_skipped + files_failed = 2: the accounting
identity of the claim fails on the code because the provisional
batch-level failure increment is never reconciled. -/
theorem metrics_conservation_eval :
    runC2.metrics.filesFound = 1 ∧
    runC2.metrics.filesProcessed = 1 ∧
    runC2.metrics.filesSkipped = 0 ∧
    runC2.metrics.filesFailed = 1 ∧
    runC2.metrics.filesFound ≠
      runC2.metrics.filesProcessed + runC2.metrics.filesSkipped +
        runC2.metrics.filesFailed := by
  refine ⟨rfl, rfl, rfl, rfl, by decide⟩

/-- Counterexample for claim C6: with a root that does not exist (or is
not a directory), modelled by `rootValid = false`, the run has already
made sink calls before the scan aborts: the trace contains the exists
check and a register call, so the run does not abort before any sink
interaction. -/
theorem invalid_root_sink_calls_counterexample :
    (run md5W vectorDbIdMain (Except.ok []) false 3 false [entryA] respSecondOnly 50).trace =
      [SinkCall.listDbs, SinkCall.register] ∧
    SinkCall.register ∈
      (run md5W vectorDbIdMain (Except.ok []) false 3 false [entryA] respSecondOnly 50).trace := by
  refine ⟨rfl, by decide⟩

/-- Claim C6 (amended): when the root path does not exist or is not a
directory, `load_documents` returns an empty document sequence with the
metrics untouched (it never reports a fatal error value), and the run
makes no insert call to the sink; vector-store setup, however, runs
before directory validation, so its exists/register/unregister calls are
not prevented. -/
theorem invalid_root_no_insert (md5hex : String → String) (vid : String)
    (lo : Except String (List String)) (recreate : Bool) (now : Nat)
    (entries : List FileEntry) (resp : Nat → Bool) (maxBatchSize : Nat)
    (m : Metrics) :
    loadDocuments md5hex now false entries m = ([], m) ∧
    ∀ ids, SinkCall.insert ids ∉
      (run md5hex vid lo recreate now false entries resp maxBatchSize).trace := by
  constructor
  · rfl
  · intro ids
    show SinkCall.insert ids ∉ setupVectorDb vid lo recreate
    cases recreate <;> cases h : vectorDbExists vid lo <;> simp [setupVectorDb, h]

/-- Counterexample for claim C5: path normalization is not injective; the
two distinct paths a/b.md and a_b.md normalize to the same token, and with
identical content they receive the same document identifier. -/
theorem path_normalization_collision_counterexample :
    normalizePath pathP1 = normalizePath pathP2 ∧
    pathP1 ≠ pathP2 ∧
    generateDocumentId md5W pathP1 contentS = generateDocumentId md5W pathP2 contentS := by
  refine ⟨rfl, by decide, by decide⟩

/-- Claim C5 (amended): identity assignment is collision-free up to hash
coincidence in the sense that equal generated identifiers force equal
8-character digest prefixes; the injectivity of path normalization claimed
in addition does not hold (see the counterexample). -/
theorem id_collision_requires_hash_collision (md5hex : String → String)
    (hw : ∀ s, (md5hex s).length = 32) (p1 c1 p2 c2 : String)
    (h : generateDocumentId md5hex p1 c1 = generateDocumentId md5hex p2 c2) :
    (md5hex c1).data.take 8 = (md5hex c2).data.take 8 := by
  have hd := congrArg String.data h
  simp only [generateDocumentId, String.data_append] at hd
  have h1 : ((md5hex c1).data.take 8).length = ((md5hex c2).data.take 8).length := by
    rw [List.length_take, List.length_take]
    have e1 : (md5hex c1).data.length = 32 := hw c1
    have e2 : (md5hex c2).data.length = 32 := hw c2
    rw [e1, e2]
  exact (List.append_inj' hd h1).2

/-- Witness for the amended claim C5 at a concrete digest function and
concrete identifier equality. -/
theorem id_collision_requires_hash_collision_witness :
    (md5W contentS).data.take 8 = (md5W contentS).data.take 8 :=
  id_collision_requires_hash_collision md5W (fun _ => rfl) pathP1 contentS pathP1 contentS rfl

/-- Every document built by one loader-loop iteration carries the
identifier `_generate_document_id` computes from the entry path and the
read content alone. -/
theorem processEntry_documentId (md5hex : String → String) (now : Nat) (e : FileEntry)
    (m : Metrics) (d : Document)
    (h : (processEntry md5hex now e m).1 = some d) :
    ∃ c, readContent e.readResult = some c ∧
      d.documentId = generateDocumentId md5hex e.path c := by
  simp only [processEntry] at h
  split at h
  · exact absurd h (by simp)
  · split at h
    · exact absurd h (by simp)
    · split at h
      · rename_i c heq
        refine ⟨c, by rw [heq, readContent], ?_⟩
        simp only at h
        cases h
        rfl
      · rename_i c heq
        refine ⟨c, by rw [heq, readContent], ?_⟩
        simp only at h
        cases h
        rfl
      · exact absurd h (by simp)
      · exact absurd h (by simp)

/-- Claim C4: the document identifier is a deterministic function of path
and content alone: two loads of the same path with byte-identical content
(hence the same read outcome), in possibly different runs with different
metrics states, upload times, file sizes and mtimes, produce documents
with equal identifiers. -/
theorem document_id_deterministic (md5hex : String → String) (now1 now2 : Nat)
    (e1 e2 : FileEntry) (m1 m2 : Metrics) (d1 d2 : Document)
    (hpath : e1.path = e2.path) (hread : e1.readResult = e2.readResult)
    (h1 : (processEntry md5hex now1 e1 m1).1 = some d1)
    (h2 : (processEntry md5hex now2 e2 m2).1 = some d2) :
    d1.documentId = d2.documentId := by
  obtain ⟨c1, hc1, hid1⟩ := processEntry_documentId md5hex now1 e1 m1 d1 h1
  obtain ⟨c2, hc2, hid2⟩ := processEntry_documentId md5hex now2 e2 m2 d2 h2
  rw [hread] at hc1
  rw [hc1] at hc2
  cases hc2
  rw [hid1, hid2, hpath]

/-- Witness for claim C4: the same file loaded in two runs with different
upload times, sizes and mtimes receives the same identifier. -/
theorem document_id_deterministic_witness :
    docA1.documentId = docA2.documentId :=
  document_id_deterministic md5W 5 77 entryA entryA2 initMetrics initMetrics
    docA1 docA2 rfl rfl rfl rfl

/-- Claim C8: for every accepted file (regular, supported extension) whose
text decode fails, the loader still produces a document via the lossy
binary fallback and records the fallback in the metadata encoding note;
files decoded normally produce a document with no such note; and for any
produced document the note is present exactly when the fallback was
used. -/
theorem decode_fallback_keeps_document (md5hex : String → String) (now : Nat)
    (e : FileEntry) (m : Metrics)
    (hdir : e.isDir = false)
    (hsupp : supportedFormats.contains (lowerStr (pathSuffix e.path)) = true) :
    (∀ c, e.readResult = ReadOutcome.binaryFallback c →
      (processEntry md5hex now e m).1 = some (mkDoc md5hex now e c (some encReplace))) ∧
    (∀ c, e.readResult = ReadOutcome.text c →
      (processEntry md5hex now e m).1 = some (mkDoc md5hex now e c none)) ∧
    (∀ d, (processEntry md5hex now e m).1 = some d →
      (d.metadata.encoding = some encReplace ↔ e.readResult.usedFallback = true) ∧
      (e.readResult.usedFallback = false → d.metadata.encoding = none)) := by
  have hmem : lowerStr (pathSuffix e.path) ∈ supportedFormats := by
    simpa using hsupp
  refine ⟨?_, ?_, ?_⟩
  · intro c hc
    simp [processEntry, hdir, hc, hmem]
  · intro c hc
    simp [processEntry, hdir, hc, hmem]
  · intro d hd
    cases hr : e.readResult with
    | text c =>
      rw [processEntry] at hd
      simp [hdir, hr, hmem] at hd
      subst hd
      simp [mkDoc, ReadOutcome.usedFallback, encReplace]
    | binaryFallback c =>
      rw [processEntry] at hd
      simp [hdir, hr, hmem] at hd
      subst hd
      simp [mkDoc, ReadOutcome.usedFallback]
    | fallbackFailed =>
      rw [processEntry] at hd
      simp [hdir, hr, hmem] at hd
    | otherFailure =>
      rw [processEntry] at hd
      simp [hdir, hr, hmem] at hd

/-- Witness for claim C8: a concrete markdown file whose decode fails is
still loaded, with the lossy content and the encoding note. -/
theorem decode_fallback_keeps_document_witness :
    (processEntry md5W 3 entryFallback initMetrics).1 =
      some (mkDoc md5W 3 entryFallback bContent (some encReplace)) :=
  (decode_fallback_keeps_document md5W 3 entryFallback initMetrics rfl (by decide)).1
    bContent rfl

end TektonGenie
